import Mathlib

/-
Verification of the fsync repository (a file-cache manager with cancellable
refreshes) against its natural-language specification.

The embedding below is a shallow translation of the Go sources:
  * part_000 : the Abortable primitive (Run / Abort, ErrAborted, ErrNotRunning,
    ErrAlreadyRunning);
  * part_001 : the Manager (Start, Open, Fetch, lockedFetch, needsFetch,
    copyBlockSize);
  * plan.go  : the Plan data (remote path, local path, update interval).

Machine integers do not occur; timestamps and durations are modelled as Int
(monotonic-comparable instants, signed durations, matching Go time.Time /
time.Duration comparisons), file bytes as List Nat.
-/

namespace fsync

/-- Errors of the package: ErrAborted, ErrNotRunning, ErrAlreadyRunning, plus
uninterpreted transport / file-system errors (ioFail) surfaced verbatim. -/
inductive Err where
  | aborted
  | notRunning
  | alreadyRunning
  | ioFail (code : Nat)
deriving DecidableEq

/-- Outcome of one Abortable.Run invocation: exactly one of the two channels
(result, errs) fires; we also record the final state of the tick closure. -/
inductive RunOutcome (σ ρ : Type) where
  | result (v : ρ) (s : σ)
  | failure (e : Err) (s : σ)
deriving DecidableEq

/-
The loop body of Abortable.Run (part_000 lines 43..58), translated step for
step.  The Go tick closure mutates captured state; here the tick is a pure
function σ → σ × Option ρ × Option Err returning (new state, result, err),
where a `some` result models a non-nil interface value.

Cancellation: Abort closes the quit channel at some real moment; the loop
observes it at every later select.  `abortIn = some k` means the closed
channel becomes visible at the k-th loop-top select check (k checks from now);
`none` means it is never closed during this run.  A select with a ready
channel case never takes its default branch, so once visible the abort wins
every later check — hence the countdown.

`fuel` bounds the number of iterations so the function is total; every
theorem below supplies fuel large enough that the bound is never the reason
a run ends (a `none` result means fuel ran out, and is never produced in the
situations the claims describe).
-/
def runLoop {σ ρ : Type} (step : σ → σ × Option ρ × Option Err)
    (abortIn : Option Nat) (fuel : Nat) (s : σ) : Option (RunOutcome σ ρ) :=
  match fuel with
  | 0 => none
  | fuel' + 1 =>
    -- select: case <-a.quit: errs <- ErrAborted
    if abortIn = some 0 then some (.failure .aborted s)
    else
      -- default: val, err := tick()
      match step s with
      | (s', some v, _) => some (.result v s')        -- if val != nil { result <- val }
      | (s', none, some e) => some (.failure e s')    -- else if err != nil { errs <- err }
      | (s', none, none) => runLoop step (abortIn.map Nat.pred) fuel' s'

/-- Abortable.Run including its single-run guard (part_000 lines 33..40): when
a quit channel is already installed (`busy`), the spawned goroutine delivers
ErrAlreadyRunning on the error channel instead of looping. -/
def Run {σ ρ : Type} (busy : Bool) (step : σ → σ × Option ρ × Option Err)
    (abortIn : Option Nat) (fuel : Nat) (s : σ) : Option (RunOutcome σ ρ) :=
  if busy then some (.failure .alreadyRunning s) else runLoop step abortIn fuel s

/-- A scripted tick for exercising Run: each list entry is the
(result, err) pair the Go tick function returns on that invocation; an
exhausted script keeps returning (nil, nil). -/
def scriptTick (s : List (Option Nat × Option Err)) :
    List (Option Nat × Option Err) × Option Nat × Option Err :=
  match s with
  | [] => ([], none, none)
  | o :: rest => (rest, o.1, o.2)

/-- The quit-channel slot of an Abortable, as Abort sees it: whether a channel
is installed, and whether it has been closed. -/
structure AbSt where
  installed : Bool
  closed : Bool
deriving DecidableEq

/-- Abortable.Abort (part_000 lines 67..75): with no installed quit channel it
returns ErrNotRunning and changes nothing; otherwise it closes the channel and
returns nil. -/
def Abort (a : AbSt) : Except Err Unit × AbSt :=
  if a.installed then (.ok (), { a with closed := true })
  else (.error .notRunning, a)

/-- copyBlockSize from part_001: bytes copied per tick. -/
def copyBlockSize : Nat := 1024000

/-- The Plan collaborator (plan.go): remote path, local path, update
interval. -/
structure Plan where
  remotePath : String
  localPath : String
  updateInterval : Int
deriving DecidableEq

/-- The mutable Manager state a fetch touches: the local file on disk (none =
absent) and lastFetchedAt. -/
structure Manager where
  localFile : Option (List Nat)
  lastFetchedAt : Int
deriving DecidableEq

/-- The remote stream opened by cloudfile.Open: its bytes, and an optional
error the reader yields after the bytes instead of a clean EOF. -/
structure RemoteStream where
  data : List Nat
  errAfter : Option Err
deriving DecidableEq

/-- State of the tick closure in lockedFetch: the local file contents as
written so far, the write offset of the local handle, and the read offset of
the remote stream. -/
structure CopySt where
  fileContents : List Nat
  filePos : Nat
  remotePos : Nat
deriving DecidableEq

/-- An in-place write of `data` into `f` at offset `pos` (the file is not
truncated: bytes past the written range survive). -/
def writeAt (f : List Nat) (pos : Nat) (data : List Nat) : List Nat :=
  f.take pos ++ data ++ f.drop (pos + data.length)

/-- The tick closure of lockedFetch (part_001 lines 104..112):
io.CopyN(file, remoteFile, copyBlockSize); a full block continues the loop,
a short read means the source ended — io.EOF reports success carrying the
file handle, any other source error is propagated. -/
def copyTick (blockSize : Nat) (remote : RemoteStream) (s : CopySt) :
    CopySt × Option Unit × Option Err :=
  let avail := remote.data.length - s.remotePos
  let n := min blockSize avail
  let data := (remote.data.drop s.remotePos).take n
  let s' : CopySt :=
    { fileContents := writeAt s.fileContents s.filePos data
      filePos := s.filePos + n
      remotePos := s.remotePos + n }
  if blockSize ≤ avail then
    (s', none, none)
  else
    match remote.errAfter with
    | none => (s', some (), none)
    | some e => (s', none, some e)

deriving instance DecidableEq for Except

/-- Inputs of one lockedFetch call that come from outside the manager state:
whether os.OpenFile fails, the result of cloudfile.Open, when (if ever) an
abort becomes visible to the copy loop, whether the Abortable slot is already
busy, and the current time. -/
structure FetchEnv where
  localOpenErr : Option Err
  remoteOpen : Except Err RemoteStream
  abortIn : Option Nat
  busy : Bool
  now : Int
deriving DecidableEq

/-- Observable outcome of one lockedFetch call: the returned (file, err) pair
(ret = ok means a non-nil handle was returned), the local file contents after
the call, lastFetchedAt after the call, whether a handle on the local file was
left open without being returned to the caller, and the offset of the returned
handle. -/
structure FetchResult where
  ret : Except Err Unit
  localFile : Option (List Nat)
  lastFetchedAt : Int
  localLeaked : Bool
  retPos : Option Nat
deriving DecidableEq

/-
Manager.lockedFetch (part_001 lines 85..124), line for line:

  os.OpenFile(localPath, O_RDWR|O_CREATE, 0644)   -- creates an empty file if absent
  if localPath != remotePath:
    cloudfile.Open(remotePath)                    -- on error: return nil, err
                                                  -- (the local handle is NOT closed here)
    defer remoteFile.Close(); defer file.Seek(0, 0)
    done, errs := m.abortable.Run(tick)
    select case <-done: m.lastFetchedAt = now; return file, nil
         case err := <-errs: return nil, err      -- lastFetchedAt untouched; handle not closed
  return file, nil                                -- equal paths: fresh handle, no copy

Fuel remote.data.length + 1 suffices for every possible run of the copy loop,
since each continuing tick consumes at least one remote byte.
-/
def lockedFetch (plan : Plan) (m : Manager) (env : FetchEnv) : Option FetchResult :=
  match env.localOpenErr with
  | some e => some { ret := .error e, localFile := m.localFile,
                     lastFetchedAt := m.lastFetchedAt, localLeaked := false, retPos := none }
  | none =>
    let contents0 := m.localFile.getD []
    if plan.localPath = plan.remotePath then
      some { ret := .ok (), localFile := some contents0,
             lastFetchedAt := m.lastFetchedAt, localLeaked := false, retPos := some 0 }
    else
      match env.remoteOpen with
      | .error e => some { ret := .error e, localFile := some contents0,
                           lastFetchedAt := m.lastFetchedAt, localLeaked := true, retPos := none }
      | .ok remote =>
        match Run env.busy (copyTick copyBlockSize remote) env.abortIn
            (remote.data.length + 1)
            { fileContents := contents0, filePos := 0, remotePos := 0 } with
        | none => none
        | some (.result _ s') =>
          some { ret := .ok (), localFile := some s'.fileContents,
                 lastFetchedAt := env.now, localLeaked := false, retPos := some 0 }
        | some (.failure e s') =>
          some { ret := .error e, localFile := some s'.fileContents,
                 lastFetchedAt := m.lastFetchedAt, localLeaked := true, retPos := none }

/-- Manager.needsFetch (part_001 lines 126..137): due when now is strictly
after lastFetchedAt + interval (time.Time.After), or when os.Stat of the local
path reports not-exist. -/
def needsFetch (now lastFetchedAt interval : Int) (localExists : Bool) : Bool :=
  if lastFetchedAt + interval < now then true
  else if localExists = false then true
  else false

/-- Manager.Open (part_001 lines 62..70): under the read lock, check
needsFetch; when due, call lockedFetch, otherwise os.Open the local path.  The
first component is what the caller can read through the returned handle. -/
def Open (plan : Plan) (m : Manager) (env : FetchEnv) :
    Option (Except Err (List Nat) × Manager) :=
  if needsFetch env.now m.lastFetchedAt plan.updateInterval m.localFile.isSome then
    match lockedFetch plan m env with
    | none => none
    | some r =>
      some (match r.ret with
            | .ok _ => .ok (r.localFile.getD [])
            | .error e => .error e,
            { localFile := r.localFile, lastFetchedAt := r.lastFetchedAt })
  else
    match m.localFile with
    | some c => some (.ok c, m)
    | none => some (.error (.ioFail 0), m)

/-- Start-relevant manager state: whether the quit channel is installed, and
how many background scheduler goroutines have been spawned and not
terminated (no stop is issued in this fragment, so spawned loops stay
live). -/
structure StartSt where
  quitInstalled : Bool
  loops : Nat
deriving DecidableEq

/-- Manager.Start (part_001 lines 41..59): `if m.quit == nil` installs the
channel, and then `go func() { ... }` is executed unconditionally — every call
spawns one more scheduler loop. -/
def Start (s : StartSt) : StartSt :=
  let s1 := if s.quitInstalled then s else { s with quitInstalled := true }
  { s1 with loops := s1.loops + 1 }

/-
Interleaving model of one Manager under concurrent Open / Fetch callers
(part_001 lines 41..124 together with the Abortable of part_000).

Each caller thread runs one Open or one Fetch call.  Program points:
  oStart  — Open before m.mu.RLock()
  oCheck  — Open holding the read lock, about to evaluate needsFetch
  fStart  — Fetch before m.mu.Lock()
  lfRun   — inside lockedFetch (local and remote opens done), about to call
            m.abortable.Run; for an Open caller the READ lock is held here,
            for a Fetch caller the write lock — exactly as in the source,
            where Open calls m.lockedFetch() under its RLock
  lfCopy  — the Run goroutine holds the installed quit channel and the copy
            loop is writing the local file
  relMgr  — about to release the manager lock (after the copy finished, or
            after Run delivered ErrAlreadyRunning, or on the not-due path)
  tdone   — returned

The Run goroutine is inlined into its calling thread: the caller blocks on
the result/err channels for the whole run, so the rendezvous makes the pair
behave as one sequential actor.  The mutex-protected check-and-install of
a.quit is one atomic step (no other actor can interleave inside the critical
section); the rejection branch keeps the Abortable mutex locked forever,
mirroring the missing a.mu.Unlock() in the ErrAlreadyRunning path of the
source.  Go RWMutex writer preference is relaxed (a reader may always enter
when no writer holds the lock), which only affects liveness, not the safety
properties stated below.
-/
inductive Pc where
  | oStart
  | oCheck
  | fStart
  | lfRun
  | lfCopy
  | relMgr
  | tdone
deriving DecidableEq

/-- One caller thread: which call it runs, the needsFetch answer it observes
(meaningful for Open callers), and its program point. -/
structure Thr where
  isOpen : Bool
  due : Bool
  pc : Pc
deriving DecidableEq

/-- Shared state: the caller threads, the RWMutex (reader count and writer
flag), the Abortable mutex, and whether an Abortable quit channel is
installed. -/
structure Sys where
  thr : List Thr
  readers : Nat
  writer : Bool
  aMu : Bool
  aQuit : Bool
deriving DecidableEq

/-- Interleaving steps of the manager model. -/
inductive Step : Sys → Sys → Prop where
  | rlock (s : Sys) (i : Nat) (t : Thr) (hget : s.thr[i]? = some t)
      (ho : t.isOpen = true) (hpc : t.pc = .oStart) (hw : s.writer = false) :
      Step s { s with thr := s.thr.set i { t with pc := .oCheck },
                      readers := s.readers + 1 }
  | oDue (s : Sys) (i : Nat) (t : Thr) (hget : s.thr[i]? = some t)
      (ho : t.isOpen = true) (hpc : t.pc = .oCheck) (hdue : t.due = true) :
      Step s { s with thr := s.thr.set i { t with pc := .lfRun } }
  | oFresh (s : Sys) (i : Nat) (t : Thr) (hget : s.thr[i]? = some t)
      (ho : t.isOpen = true) (hpc : t.pc = .oCheck) (hdue : t.due = false) :
      Step s { s with thr := s.thr.set i { t with pc := .relMgr } }
  | wlock (s : Sys) (i : Nat) (t : Thr) (hget : s.thr[i]? = some t)
      (ho : t.isOpen = false) (hpc : t.pc = .fStart) (hw : s.writer = false)
      (hr : s.readers = 0) :
      Step s { s with thr := s.thr.set i { t with pc := .lfRun },
                      writer := true }
  | runInstall (s : Sys) (i : Nat) (t : Thr) (hget : s.thr[i]? = some t)
      (hpc : t.pc = .lfRun) (hmu : s.aMu = false) (hq : s.aQuit = false) :
      Step s { s with thr := s.thr.set i { t with pc := .lfCopy },
                      aQuit := true }
  | runReject (s : Sys) (i : Nat) (t : Thr) (hget : s.thr[i]? = some t)
      (hpc : t.pc = .lfRun) (hmu : s.aMu = false) (hq : s.aQuit = true) :
      Step s { s with thr := s.thr.set i { t with pc := .relMgr },
                      aMu := true }
  | copyDone (s : Sys) (i : Nat) (t : Thr) (hget : s.thr[i]? = some t)
      (hpc : t.pc = .lfCopy) :
      Step s { s with thr := s.thr.set i { t with pc := .relMgr },
                      aQuit := false }
  | unlockOpen (s : Sys) (i : Nat) (t : Thr) (hget : s.thr[i]? = some t)
      (ho : t.isOpen = true) (hpc : t.pc = .relMgr) :
      Step s { s with thr := s.thr.set i { t with pc := .tdone },
                      readers := s.readers - 1 }
  | unlockFetch (s : Sys) (i : Nat) (t : Thr) (hget : s.thr[i]? = some t)
      (ho : t.isOpen = false) (hpc : t.pc = .relMgr) :
      Step s { s with thr := s.thr.set i { t with pc := .tdone },
                      writer := false }

/-- Reachability under interleaving. -/
def Reach : Sys → Sys → Prop := Relation.ReflTransGen Step

/-- A fresh caller thread: Open callers enter at oStart, Fetch callers at
fStart. -/
def mkThr (isOpen due : Bool) : Thr :=
  { isOpen := isOpen, due := due, pc := if isOpen then .oStart else .fStart }

/-- Initial system for a given population of callers (isOpen, due) with all
locks free and no quit channel installed. -/
def sys0 (ks : List (Bool × Bool)) : Sys :=
  { thr := ks.map (fun k => mkThr k.1 k.2), readers := 0, writer := false,
    aMu := false, aQuit := false }

/-- At most one thread is inside the copy loop that writes the local file. -/
def atMostOneCopy (s : Sys) : Prop :=
  ∀ (i j : Nat) (a b : Thr), s.thr[i]? = some a → s.thr[j]? = some b →
    a.pc = .lfCopy → b.pc = .lfCopy → i = j

/-- No thread at all is inside the copy loop. -/
def noCopy (s : Sys) : Prop :=
  ∀ (i : Nat) (a : Thr), s.thr[i]? = some a → a.pc ≠ .lfCopy

/-- Inductive invariant: single-flight of the copy loop, tied to the quit
channel slot of the Abortable. -/
def InvC (s : Sys) : Prop := atMostOneCopy s ∧ (s.aQuit = false → noCopy s)

/-- Claim C9 counterexample: with interval zero, the file present, and the
current time equal to the last-fetch time, needsFetch returns false —
time.After is strict, so a zero interval does not make a refresh due at
literally every instant, only strictly after the last fetch. -/
theorem c9_counterexample : needsFetch 0 0 0 true = false := by decide

/-- Claim C9 amended: for every update interval ≥ 0, last-fetch time, and
current time, needsFetch returns true iff now > lastFetchedAt + interval or
the local path does not exist, and false otherwise; with interval zero a
refresh is due exactly when now > lastFetchedAt or the path is absent (not at
the very instant of the last fetch). -/
theorem c9_needsFetch_iff (now lastFetchedAt interval : Int) (localExists : Bool)
    (hi : 0 ≤ interval) :
    (needsFetch now lastFetchedAt interval localExists = true ↔
      (lastFetchedAt + interval < now ∨ localExists = false)) ∧
    (interval = 0 →
      (needsFetch now lastFetchedAt 0 localExists = true ↔
        (lastFetchedAt < now ∨ localExists = false))) := by
  constructor
  · by_cases h1 : lastFetchedAt + interval < now <;>
      cases localExists <;> simp [needsFetch, h1]
  · intro h
    by_cases h1 : lastFetchedAt < now <;>
      cases localExists <;> simp [needsFetch, h1]

/-- Witness for C9 at now = 1, lastFetchedAt = 0, interval = 0, file
present. -/
theorem c9_witness :
    ((needsFetch 1 0 0 true = true ↔ ((0 : Int) + 0 < 1 ∨ true = false)) ∧
      ((0 : Int) = 0 →
        (needsFetch 1 0 0 true = true ↔ ((0 : Int) < 1 ∨ true = false)))) :=
  c9_needsFetch_iff 1 0 0 true (by norm_num)

/-- Claim C10: when the tick function hands Run a non-nil result and a
non-nil error in the same invocation, the run is a success — the result is
delivered and the error discarded, because the loop body checks the result
first. -/
theorem c10_result_precedence {σ ρ : Type} (step : σ → σ × Option ρ × Option Err)
    (s s' : σ) (v : ρ) (e : Err) (abortIn : Option Nat) (fuel : Nat)
    (hA : abortIn ≠ some 0) (hf : 0 < fuel)
    (hstep : step s = (s', some v, some e)) :
    runLoop step abortIn fuel s = some (.result v s') := by
  cases fuel with
  | zero => omega
  | succ fuel' => simp [runLoop, hA, hstep]

/-- Witness for C10: a one-entry script returning both a result (7) and an
error; the run delivers the result. -/
theorem c10_witness :
    runLoop scriptTick (some 1) 1 [(some 7, some (Err.ioFail 3))] =
      some (.result 7 []) :=
  c10_result_precedence scriptTick _ _ 7 (Err.ioFail 3) (some 1) 1
    (by decide) (by decide) rfl

/-- Claim C3 counterexample: Start spawns the scheduler goroutine
unconditionally (only the quit-channel installation is guarded by the nil
check), so two Start calls on a fresh manager leave two live competing
background loops — the claim says a second loop is never spawned. -/
theorem c3_counterexample :
    (Start (Start { quitInstalled := false, loops := 0 })).loops = 2 := by
  decide

/-- Claim C3 amended: every Start call spawns one more background loop
goroutine, unconditionally; n Start calls on a fresh manager leave n live
loops (the nil check only guards installing the stop channel, so repeated
Start while already started does add competing loops). -/
theorem c3_amended (n : Nat) :
    (Start^[n] { quitInstalled := false, loops := 0 }).loops = n ∧
    ∀ s : StartSt, (Start s).loops = s.loops + 1 := by
  constructor
  · induction n with
    | zero => rfl
    | succ k ih =>
      rw [Function.iterate_succ_apply']
      by_cases h : (Start^[k] { quitInstalled := false, loops := 0 }).quitInstalled <;>
        simp [Start, h, ih]
  · intro s
    by_cases h : s.quitInstalled <;> simp [Start, h]

/-- Claim C7, the code at the failing input: when the local open succeeds and
cloudfile.Open fails, lockedFetch returns the transport error but leaves the
just-opened local file handle open — there is no file.Close() on that return
path in the source. -/
theorem c7_local_handle_leak :
    lockedFetch { remotePath := "r", localPath := "l", updateInterval := 10 }
      { localFile := some [1], lastFetchedAt := 0 }
      { localOpenErr := none, remoteOpen := .error (.ioFail 7), abortIn := none,
        busy := false, now := 5 } =
    some { ret := .error (.ioFail 7), localFile := some [1], lastFetchedAt := 0,
           localLeaked := true, retPos := none } := by
  decide

lemma getElem?_set_cases {l : List Thr} {i j : Nat} {t' a : Thr}
    (h : (l.set i t')[j]? = some a) : (i = j ∧ a = t') ∨ (i ≠ j ∧ l[j]? = some a) := by
  by_cases hij : i = j
  · subst hij
    left
    refine ⟨rfl, ?_⟩
    rcases List.getElem?_eq_some.mp h with ⟨hlt, _⟩
    rw [List.length_set] at hlt
    rw [List.getElem?_set_self hlt] at h
    exact (Option.some_inj.mp h).symm
  · right
    exact ⟨hij, by rwa [List.getElem?_set_ne hij] at h⟩

lemma atMostOne_set_of_not_copy {l : List Thr} {i : Nat} {t' : Thr}
    (ht' : t'.pc ≠ .lfCopy)
    (hA : ∀ (p q : Nat) (a b : Thr), l[p]? = some a → l[q]? = some b →
      a.pc = .lfCopy → b.pc = .lfCopy → p = q) :
    ∀ (p q : Nat) (a b : Thr), (l.set i t')[p]? = some a → (l.set i t')[q]? = some b →
      a.pc = .lfCopy → b.pc = .lfCopy → p = q := by
  intro p q a b hp hq ha hb
  rcases getElem?_set_cases hp with ⟨rfl, rfl⟩ | ⟨hpi, hp'⟩
  · exact absurd ha ht'
  · rcases getElem?_set_cases hq with ⟨rfl, rfl⟩ | ⟨hqi, hq'⟩
    · exact absurd hb ht'
    · exact hA p q a b hp' hq' ha hb

lemma invC_of_set (s : Sys) (i : Nat) (t' : Thr) (rd : Nat) (wr mu : Bool)
    (hI : InvC s) (ht' : t'.pc ≠ .lfCopy) :
    InvC { thr := s.thr.set i t', readers := rd, writer := wr, aMu := mu,
           aQuit := s.aQuit } := by
  refine ⟨atMostOne_set_of_not_copy ht' hI.1, ?_⟩
  intro hq p a hp
  rcases getElem?_set_cases hp with ⟨rfl, rfl⟩ | ⟨hpi, hp'⟩
  · exact ht'
  · exact hI.2 hq p a hp'

lemma invC_step {s s' : Sys} (h : Step s s') (hI : InvC s) : InvC s' := by
  cases h with
  | rlock i t hget ho hpc hw => exact invC_of_set s i _ _ _ _ hI (by simp)
  | oDue i t hget ho hpc hdue => exact invC_of_set s i _ _ _ _ hI (by simp)
  | oFresh i t hget ho hpc hdue => exact invC_of_set s i _ _ _ _ hI (by simp)
  | wlock i t hget ho hpc hw hr => exact invC_of_set s i _ _ _ _ hI (by simp)
  | runReject i t hget hpc hmu hq => exact invC_of_set s i _ _ _ _ hI (by simp)
  | unlockOpen i t hget ho hpc => exact invC_of_set s i _ _ _ _ hI (by simp)
  | unlockFetch i t hget ho hpc => exact invC_of_set s i _ _ _ _ hI (by simp)
  | runInstall i t hget hpc hmu hq =>
    have hN : noCopy s := hI.2 hq
    constructor
    · intro p q a b hp hq' ha hb
      rcases getElem?_set_cases hp with ⟨rfl, rfl⟩ | ⟨hpi, hp'⟩
      · rcases getElem?_set_cases hq' with ⟨h2, _⟩ | ⟨hqi, hq''⟩
        · exact h2
        · exact absurd hb (hN q b hq'')
      · exact absurd ha (hN p a hp')
    · intro hfalse
      simp at hfalse
  | copyDone i t hget hpc =>
    constructor
    · exact atMostOne_set_of_not_copy (by simp) hI.1
    · intro _ p a hp
      rcases getElem?_set_cases hp with ⟨rfl, rfl⟩ | ⟨hpi, hp'⟩
      · simp
      · intro ha
        exact hpi (hI.1 i p t a hget hp' hpc ha)

lemma sys0_noCopy (ks : List (Bool × Bool)) : noCopy (sys0 ks) := by
  intro i a hi
  simp only [sys0, List.getElem?_map] at hi
  rcases Option.map_eq_some'.mp hi with ⟨k, _, rfl⟩
  by_cases h : k.1 <;> simp [mkThr, h]

lemma atMostOne_of_noCopy {s : Sys} (h : noCopy s) : atMostOneCopy s := by
  intro i j a b hi hj ha hb
  exact absurd ha (h i a hi)

lemma invC_reach {s0 s : Sys} (h0 : InvC s0) (h : Reach s0 s) : InvC s := by
  induction h with
  | refl => exact h0
  | tail _ hstep ih => exact invC_step hstep ih

/-- Claim C1 amended: for one manager and any number of concurrent Fetch and
Open callers, at most one refresh (copy loop writing the local file) is in
flight at any instant — enforced by the single-run guard of the Abortable,
not by the manager lock alone: a direct Fetch holds the exclusive lock around
the fetch path, but an Open whose freshness check says due calls the fetch
path while holding only the shared (read) lock. -/
theorem c1_single_flight (ks : List (Bool × Bool)) (s : Sys)
    (h : Reach (sys0 ks) s) : atMostOneCopy s :=
  (invC_reach ⟨atMostOne_of_noCopy (sys0_noCopy ks), fun _ => sys0_noCopy ks⟩ h).1

/-- Witness for C1: the initial system with one due Open caller is reachable
from itself and satisfies the single-flight property. -/
theorem c1_witness : atMostOneCopy (sys0 [(true, true)]) :=
  c1_single_flight [(true, true)] (sys0 [(true, true)]) Relation.ReflTransGen.refl

/-- Claim C1 counterexample: a single Open caller whose freshness check says
due reaches the copy loop of lockedFetch in a state where the writer flag of
the manager lock is false — Open escalates under its shared (read) lock, so
not every path that reaches the fetch/copy code holds the exclusive lock. -/
theorem c1_counterexample :
    Reach (sys0 [(true, true)])
      { thr := [{ isOpen := true, due := true, pc := .lfCopy }], readers := 1,
        writer := false, aMu := false, aQuit := true } ∧
    ({ thr := [{ isOpen := true, due := true, pc := .lfCopy }], readers := 1,
       writer := false, aMu := false, aQuit := true } : Sys).thr[0]? =
      some { isOpen := true, due := true, pc := .lfCopy } ∧
    ({ thr := [{ isOpen := true, due := true, pc := .lfCopy }], readers := 1,
       writer := false, aMu := false, aQuit := true } : Sys).writer = false := by
  refine ⟨?_, rfl, rfl⟩
  have h1 : Step (sys0 [(true, true)])
      { thr := [{ isOpen := true, due := true, pc := .oCheck }], readers := 1,
        writer := false, aMu := false, aQuit := false } :=
    Step.rlock (sys0 [(true, true)]) 0 (mkThr true true) rfl rfl rfl rfl
  have h2 : Step
      { thr := [{ isOpen := true, due := true, pc := .oCheck }], readers := 1,
        writer := false, aMu := false, aQuit := false }
      { thr := [{ isOpen := true, due := true, pc := .lfRun }], readers := 1,
        writer := false, aMu := false, aQuit := false } :=
    Step.oDue _ 0 { isOpen := true, due := true, pc := .oCheck } rfl rfl rfl rfl
  have h3 : Step
      { thr := [{ isOpen := true, due := true, pc := .lfRun }], readers := 1,
        writer := false, aMu := false, aQuit := false }
      { thr := [{ isOpen := true, due := true, pc := .lfCopy }], readers := 1,
        writer := false, aMu := false, aQuit := true } :=
    Step.runInstall _ 0 { isOpen := true, due := true, pc := .lfRun } rfl rfl rfl rfl
  exact Relation.ReflTransGen.head h1 (Relation.ReflTransGen.head h2
    (Relation.ReflTransGen.head h3 Relation.ReflTransGen.refl))

/-- Claim C4, the code at the failing input: three Run attempts through one
Abortable.  The first installs the quit channel and runs; the second is
rejected with ErrAlreadyRunning, and its goroutine returns without unlocking
the Abortable mutex; the first then completes fully and releases everything
it holds.  The third attempt is blocked forever: the reached state has the
Abortable mutex still held, the third caller stuck before its guard check,
and no step at all is enabled — so a new Run after the active run completes
does NOT proceed normally, contradicting the claim. -/
theorem c4_already_running_deadlock :
    Reach (sys0 [(true, true), (true, true), (true, true)])
      { thr := [{ isOpen := true, due := true, pc := .tdone },
                { isOpen := true, due := true, pc := .tdone },
                { isOpen := true, due := true, pc := .lfRun }],
        readers := 1, writer := false, aMu := true, aQuit := false } ∧
    (∀ s', ¬ Step
      { thr := [{ isOpen := true, due := true, pc := .tdone },
                { isOpen := true, due := true, pc := .tdone },
                { isOpen := true, due := true, pc := .lfRun }],
        readers := 1, writer := false, aMu := true, aQuit := false } s') := by
  constructor
  · have h1 : Step (sys0 [(true, true), (true, true), (true, true)])
        { thr := [{ isOpen := true, due := true, pc := .oCheck },
                  { isOpen := true, due := true, pc := .oStart },
                  { isOpen := true, due := true, pc := .oStart }],
          readers := 1, writer := false, aMu := false, aQuit := false } :=
      Step.rlock _ 0 (mkThr true true) rfl rfl rfl rfl
    have h2 : Step
        { thr := [{ isOpen := true, due := true, pc := .oCheck },
                  { isOpen := true, due := true, pc := .oStart },
                  { isOpen := true, due := true, pc := .oStart }],
          readers := 1, writer := false, aMu := false, aQuit := false }
        { thr := [{ isOpen := true, due := true, pc := .lfRun },
                  { isOpen := true, due := true, pc := .oStart },
                  { isOpen := true, due := true, pc := .oStart }],
          readers := 1, writer := false, aMu := false, aQuit := false } :=
      Step.oDue _ 0 { isOpen := true, due := true, pc := .oCheck } rfl rfl rfl rfl
    have h3 : Step
        { thr := [{ isOpen := true, due := true, pc := .lfRun },
                  { isOpen := true, due := true, pc := .oStart },
                  { isOpen := true, due := true, pc := .oStart }],
          readers := 1, writer := false, aMu := false, aQuit := false }
        { thr := [{ isOpen := true, due := true, pc := .lfCopy },
                  { isOpen := true, due := true, pc := .oStart },
                  { isOpen := true, due := true, pc := .oStart }],
          readers := 1, writer := false, aMu := false, aQuit := true } :=
      Step.runInstall _ 0 { isOpen := true, due := true, pc := .lfRun } rfl rfl rfl rfl
    have h4 : Step
        { thr := [{ isOpen := true, due := true, pc := .lfCopy },
                  { isOpen := true, due := true, pc := .oStart },
                  { isOpen := true, due := true, pc := .oStart }],
          readers := 1, writer := false, aMu := false, aQuit := true }
        { thr := [{ isOpen := true, due := true, pc := .lfCopy },
                  { isOpen := true, due := true, pc := .oCheck },
                  { isOpen := true, due := true, pc := .oStart }],
          readers := 2, writer := false, aMu := false, aQuit := true } :=
      Step.rlock _ 1 { isOpen := true, due := true, pc := .oStart } rfl rfl rfl rfl
    have h5 : Step
        { thr := [{ isOpen := true, due := true, pc := .lfCopy },
                  { isOpen := true, due := true, pc := .oCheck },
                  { isOpen := true, due := true, pc := .oStart }],
          readers := 2, writer := false, aMu := false, aQuit := true }
        { thr := [{ isOpen := true, due := true, pc := .lfCopy },
                  { isOpen := true, due := true, pc := .lfRun },
                  { isOpen := true, due := true, pc := .oStart }],
          readers := 2, writer := false, aMu := false, aQuit := true } :=
      Step.oDue _ 1 { isOpen := true, due := true, pc := .oCheck } rfl rfl rfl rfl
    have h6 : Step
        { thr := [{ isOpen := true, due := true, pc := .lfCopy },
                  { isOpen := true, due := true, pc := .lfRun },
                  { isOpen := true, due := true, pc := .oStart }],
          readers := 2, writer := false, aMu := false, aQuit := true }
        { thr := [{ isOpen := true, due := true, pc := .lfCopy },
                  { isOpen := true, due := true, pc := .relMgr },
                  { isOpen := true, due := true, pc := .oStart }],
          readers := 2, writer := false, aMu := true, aQuit := true } :=
      Step.runReject _ 1 { isOpen := true, due := true, pc := .lfRun } rfl rfl rfl rfl
    have h7 : Step
        { thr := [{ isOpen := true, due := true, pc := .lfCopy },
                  { isOpen := true, due := true, pc := .relMgr },
                  { isOpen := true, due := true, pc := .oStart }],
          readers := 2, writer := false, aMu := true, aQuit := true }
        { thr := [{ isOpen := true, due := true, pc := .lfCopy },
                  { isOpen := true, due := true, pc := .tdone },
                  { isOpen := true, due := true, pc := .oStart }],
          readers := 1, writer := false, aMu := true, aQuit := true } :=
      Step.unlockOpen _ 1 { isOpen := true, due := true, pc := .relMgr } rfl rfl rfl
    have h8 : Step
        { thr := [{ isOpen := true, due := true, pc := .lfCopy },
                  { isOpen := true, due := true, pc := .tdone },
                  { isOpen := true, due := true, pc := .oStart }],
          readers := 1, writer := false, aMu := true, aQuit := true }
        { thr := [{ isOpen := true, due := true, pc := .relMgr },
                  { isOpen := true, due := true, pc := .tdone },
                  { isOpen := true, due := true, pc := .oStart }],
          readers := 1, writer := false, aMu := true, aQuit := false } :=
      Step.copyDone _ 0 { isOpen := true, due := true, pc := .lfCopy } rfl rfl
    have h9 : Step
        { thr := [{ isOpen := true, due := true, pc := .relMgr },
                  { isOpen := true, due := true, pc := .tdone },
                  { isOpen := true, due := true, pc := .oStart }],
          readers := 1, writer := false, aMu := true, aQuit := false }
        { thr := [{ isOpen := true, due := true, pc := .tdone },
                  { isOpen := true, due := true, pc := .tdone },
                  { isOpen := true, due := true, pc := .oStart }],
          readers := 0, writer := false, aMu := true, aQuit := false } :=
      Step.unlockOpen _ 0 { isOpen := true, due := true, pc := .relMgr } rfl rfl rfl
    have h10 : Step
        { thr := [{ isOpen := true, due := true, pc := .tdone },
                  { isOpen := true, due := true, pc := .tdone },
                  { isOpen := true, due := true, pc := .oStart }],
          readers := 0, writer := false, aMu := true, aQuit := false }
        { thr := [{ isOpen := true, due := true, pc := .tdone },
                  { isOpen := true, due := true, pc := .tdone },
                  { isOpen := true, due := true, pc := .oCheck }],
          readers := 1, writer := false, aMu := true, aQuit := false } :=
      Step.rlock _ 2 { isOpen := true, due := true, pc := .oStart } rfl rfl rfl rfl
    have h11 : Step
        { thr := [{ isOpen := true, due := true, pc := .tdone },
                  { isOpen := true, due := true, pc := .tdone },
                  { isOpen := true, due := true, pc := .oCheck }],
          readers := 1, writer := false, aMu := true, aQuit := false }
        { thr := [{ isOpen := true, due := true, pc := .tdone },
                  { isOpen := true, due := true, pc := .tdone },
                  { isOpen := true, due := true, pc := .lfRun }],
          readers := 1, writer := false, aMu := true, aQuit := false } :=
      Step.oDue _ 2 { isOpen := true, due := true, pc := .oCheck } rfl rfl rfl rfl
    exact Relation.ReflTransGen.head h1 (Relation.ReflTransGen.head h2
      (Relation.ReflTransGen.head h3 (Relation.ReflTransGen.head h4
        (Relation.ReflTransGen.head h5 (Relation.ReflTransGen.head h6
          (Relation.ReflTransGen.head h7 (Relation.ReflTransGen.head h8
            (Relation.ReflTransGen.head h9 (Relation.ReflTransGen.head h10
              (Relation.ReflTransGen.head h11 Relation.ReflTransGen.refl))))))))))
  · intro s' h
    cases h with
    | rlock i t hget ho hpc hw =>
      rcases i with _ | _ | _ | i <;> simp_all <;> (cases hget; simp_all)
    | oDue i t hget ho hpc hdue =>
      rcases i with _ | _ | _ | i <;> simp_all <;> (cases hget; simp_all)
    | oFresh i t hget ho hpc hdue =>
      rcases i with _ | _ | _ | i <;> simp_all <;> (cases hget; simp_all)
    | wlock i t hget ho hpc hw hr =>
      rcases i with _ | _ | _ | i <;> simp_all
    | runInstall i t hget hpc hmu hq => simp_all
    | runReject i t hget hpc hmu hq => simp_all
    | copyDone i t hget hpc =>
      rcases i with _ | _ | _ | i <;> simp_all <;> (cases hget; simp_all)
    | unlockOpen i t hget ho hpc =>
      rcases i with _ | _ | _ | i <;> simp_all <;> (cases hget; simp_all)
    | unlockFetch i t hget ho hpc =>
      rcases i with _ | _ | _ | i <;> simp_all <;> (cases hget; simp_all)

lemma writeAt_nil (f : List Nat) (pos : Nat) : writeAt f pos [] = f := by
  simp [writeAt]

lemma length_writeAt (f data : List Nat) (pos : Nat) (hpos : pos ≤ f.length) :
    (writeAt f pos data).length = max f.length (pos + data.length) := by
  simp [writeAt, Nat.min_eq_left hpos]
  omega

lemma writeAt_writeAt (f t u : List Nat) (pos : Nat) (hpos : pos ≤ f.length) :
    writeAt (writeAt f pos t) (pos + t.length) u = writeAt f pos (t ++ u) := by
  have hlen : (f.take pos ++ t).length = pos + t.length := by
    simp [Nat.min_eq_left hpos]
  unfold writeAt
  rw [List.take_left' hlen]
  rw [show pos + t.length + u.length = (f.take pos ++ t).length + u.length by rw [hlen]]
  rw [List.drop_append, List.drop_drop]
  simp [List.append_assoc, Nat.add_assoc]

lemma runLoop_copy_clean (B : Nat) (hB : 1 ≤ B) (remote : RemoteStream)
    (hclean : remote.errAfter = none) :
    ∀ (fuel : Nat) (f : List Nat) (pos rpos : Nat),
      pos ≤ f.length → rpos ≤ remote.data.length →
      remote.data.length - rpos < fuel →
      runLoop (copyTick B remote) none fuel
          { fileContents := f, filePos := pos, remotePos := rpos } =
        some (.result () { fileContents := writeAt f pos (remote.data.drop rpos),
                           filePos := pos + (remote.data.length - rpos),
                           remotePos := rpos + (remote.data.length - rpos) }) := by
  intro fuel
  induction fuel with
  | zero =>
    intro f pos rpos _ _ h3
    omega
  | succ fuel ih =>
    intro f pos rpos hpos hrpos hfuel
    by_cases hav : B ≤ remote.data.length - rpos
    · have hstep : copyTick B remote { fileContents := f, filePos := pos, remotePos := rpos } =
          ({ fileContents := writeAt f pos ((remote.data.drop rpos).take B),
             filePos := pos + B, remotePos := rpos + B }, none, none) := by
        simp [copyTick, Nat.min_eq_left hav, hav]
      have hlen1 : ((remote.data.drop rpos).take B).length = B := by
        simp [List.length_take, List.length_drop]
        omega
      have hpos' : pos + B ≤ (writeAt f pos ((remote.data.drop rpos).take B)).length := by
        rw [length_writeAt _ _ _ hpos, hlen1]
        omega
      have hrec := ih (writeAt f pos ((remote.data.drop rpos).take B)) (pos + B) (rpos + B)
        hpos' (by omega) (by omega)
      rw [runLoop]
      simp only [hstep, Option.map_none']
      rw [if_neg (by simp)]
      rw [hrec]
      have hfc : writeAt (writeAt f pos ((remote.data.drop rpos).take B)) (pos + B)
          (remote.data.drop (rpos + B)) = writeAt f pos (remote.data.drop rpos) := by
        have h1 : remote.data.drop (rpos + B) = (remote.data.drop rpos).drop B := by
          rw [List.drop_drop]
        have h2 := writeAt_writeAt f ((remote.data.drop rpos).take B)
          ((remote.data.drop rpos).drop B) pos hpos
        rw [hlen1] at h2
        rw [h1, h2, List.take_append_drop]
      have e2 : pos + B + (remote.data.length - (rpos + B)) =
          pos + (remote.data.length - rpos) := by omega
      have e3 : rpos + B + (remote.data.length - (rpos + B)) =
          rpos + (remote.data.length - rpos) := by omega
      rw [hfc, e2, e3]
    · have havail : remote.data.length - rpos < B := by omega
      have hmin : min B (remote.data.length - rpos) = remote.data.length - rpos :=
        Nat.min_eq_right (Nat.le_of_lt havail)
      have htake : (remote.data.drop rpos).take (remote.data.length - rpos) =
          remote.data.drop rpos := by
        apply List.take_of_length_le
        simp [List.length_drop]
      have hstep : copyTick B remote { fileContents := f, filePos := pos, remotePos := rpos } =
          ({ fileContents := writeAt f pos (remote.data.drop rpos),
             filePos := pos + (remote.data.length - rpos),
             remotePos := rpos + (remote.data.length - rpos) }, some (), none) := by
        simp [copyTick, hmin, htake, hclean, hav]
      rw [runLoop]
      simp only [hstep]
      rw [if_neg (by simp)]

lemma runLoop_copy_abort (B : Nat) (hB : 1 ≤ B) (remote : RemoteStream) :
    ∀ (k fuel : Nat) (f : List Nat) (pos rpos : Nat),
      pos ≤ f.length → rpos ≤ remote.data.length →
      k * B ≤ remote.data.length - rpos → k < fuel →
      runLoop (copyTick B remote) (some k) fuel
          { fileContents := f, filePos := pos, remotePos := rpos } =
        some (.failure .aborted
          { fileContents := writeAt f pos ((remote.data.drop rpos).take (k * B)),
            filePos := pos + k * B, remotePos := rpos + k * B }) := by
  intro k
  induction k with
  | zero =>
    intro fuel f pos rpos hpos hrpos hk hfuel
    cases fuel with
    | zero => omega
    | succ fuel =>
      rw [runLoop]
      simp [writeAt_nil]
  | succ k ih =>
    intro fuel f pos rpos hpos hrpos hk hfuel
    cases fuel with
    | zero => omega
    | succ fuel =>
      have hav : B ≤ remote.data.length - rpos := by
        have h1 : 1 * B ≤ (k + 1) * B := Nat.mul_le_mul_right B (by omega)
        have h2 : 1 * B = B := Nat.one_mul B
        omega
      have hstep : copyTick B remote { fileContents := f, filePos := pos, remotePos := rpos } =
          ({ fileContents := writeAt f pos ((remote.data.drop rpos).take B),
             filePos := pos + B, remotePos := rpos + B }, none, none) := by
        simp [copyTick, Nat.min_eq_left hav, hav]
      have hlen1 : ((remote.data.drop rpos).take B).length = B := by
        simp [List.length_take, List.length_drop]
        omega
      have hpos' : pos + B ≤ (writeAt f pos ((remote.data.drop rpos).take B)).length := by
        rw [length_writeAt _ _ _ hpos, hlen1]
        omega
      have hmul : (k + 1) * B = k * B + B := by ring
      have hrec := ih fuel (writeAt f pos ((remote.data.drop rpos).take B)) (pos + B) (rpos + B)
        hpos' (by omega) (by omega) (by omega)
      rw [runLoop]
      simp only [hstep]
      rw [if_neg (by simp)]
      have hmap : (some (k + 1)).map Nat.pred = some k := rfl
      rw [hmap, hrec]
      have h1 : (remote.data.drop (rpos + B)).take (k * B) =
          ((remote.data.drop rpos).drop B).take (k * B) := by
        rw [List.drop_drop]
      have h2 := writeAt_writeAt f ((remote.data.drop rpos).take B)
        (((remote.data.drop rpos).drop B).take (k * B)) pos hpos
      rw [hlen1] at h2
      have h3 : (remote.data.drop rpos).take B ++ ((remote.data.drop rpos).drop B).take (k * B) =
          (remote.data.drop rpos).take (B + k * B) := (List.take_add _ _ _).symm
      have e1 : B + k * B = (k + 1) * B := by ring
      have e2 : pos + B + k * B = pos + (k + 1) * B := by omega
      have e3 : rpos + B + k * B = rpos + (k + 1) * B := by omega
      rw [h1, h2, h3, e1, e2, e3]

lemma replicate_append_ne (B : Nat) (hB : 0 < B) (a b : Nat) (l l' : List Nat)
    (hab : a ≠ b) : List.replicate B a ++ l ≠ List.replicate B b ++ l' := by
  obtain ⟨B', rfl⟩ := Nat.exists_eq_succ_of_ne_zero hB.ne'
  simp [List.replicate_succ, hab]

lemma runLoop_script_abort (j : Nat) :
    ∀ (fuel : Nat) (script : List (Option Nat × Option Err)),
      (∀ p ∈ script.take j, p = (none, none)) → j < fuel →
      runLoop scriptTick (some j) fuel script =
        some (.failure .aborted (script.drop j)) := by
  induction j with
  | zero =>
    intro fuel script hpre hfuel
    cases fuel with
    | zero => omega
    | succ fuel =>
      rw [runLoop]
      simp
  | succ j ih =>
    intro fuel script hpre hfuel
    cases fuel with
    | zero => omega
    | succ fuel =>
      rw [runLoop]
      rw [if_neg (by simp)]
      cases script with
      | nil =>
        simp only [scriptTick]
        rw [show (some (j + 1)).map Nat.pred = some j from rfl]
        rw [ih fuel [] (by simp) (by omega)]
        simp
      | cons p rest =>
        have hp : p = (none, none) := hpre p (by simp [List.take_succ_cons])
        subst hp
        simp only [scriptTick]
        rw [show (some (j + 1)).map Nat.pred = some j from rfl]
        rw [ih fuel rest (fun q hq => hpre q (by simp [List.take_succ_cons, hq])) (by omega)]
        simp

/-- Claim C6 counterexample: a successful Fetch into a local file whose prior
contents are longer than the remote stream does NOT leave the local file equal
to the remote bytes — the file is never truncated, so the old tail survives
(remote [1,2] over prior [9,9,9] yields [1,2,9]). -/
theorem c6_counterexample :
    lockedFetch { remotePath := "r", localPath := "l", updateInterval := 10 }
      { localFile := some [9, 9, 9], lastFetchedAt := 0 }
      { localOpenErr := none,
        remoteOpen := .ok { data := [1, 2], errAfter := none },
        abortIn := none, busy := false, now := 5 } =
      some { ret := .ok (), localFile := some [1, 2, 9], lastFetchedAt := 5,
             localLeaked := false, retPos := some 0 } ∧
    ([1, 2, 9] : List Nat) ≠ [1, 2] := by
  constructor
  · decide
  · decide

/-- Claim C6 amended: a successful Fetch with distinct paths leaves the local
file equal to the remote bytes followed by whatever prior local bytes lay
beyond the remote length (no truncation); the contents equal exactly the
remote bytes when the prior local file was no longer than the remote stream —
in particular when it was empty — and the returned handle is at offset 0 with
lastFetchedAt set to the fetch time. -/
theorem c6_fetch_round_trip (plan : Plan) (m : Manager) (env : FetchEnv)
    (remote : RemoteStream)
    (hpath : plan.localPath ≠ plan.remotePath)
    (hopen : env.localOpenErr = none)
    (hremote : env.remoteOpen = .ok remote)
    (hclean : remote.errAfter = none)
    (habort : env.abortIn = none)
    (hbusy : env.busy = false) :
    lockedFetch plan m env =
      some { ret := .ok (),
             localFile := some (remote.data ++ (m.localFile.getD []).drop remote.data.length),
             lastFetchedAt := env.now, localLeaked := false, retPos := some 0 } ∧
    ((m.localFile.getD []).length ≤ remote.data.length →
      remote.data ++ (m.localFile.getD []).drop remote.data.length = remote.data) := by
  constructor
  · have hrun := runLoop_copy_clean copyBlockSize (by norm_num [copyBlockSize]) remote
      hclean (remote.data.length + 1)
      (m.localFile.getD []) 0 0 (by omega) (by omega) (by omega)
    have hw : writeAt (m.localFile.getD []) 0 (remote.data.drop 0) =
        remote.data ++ (m.localFile.getD []).drop remote.data.length := by
      simp [writeAt]
    simp only [lockedFetch, hopen]
    rw [if_neg hpath]
    simp only [hremote, Run, hbusy, habort, if_false, Bool.false_eq_true]
    rw [hrun, hw]
  · intro hle
    rw [List.drop_eq_nil_of_le hle, List.append_nil]

/-- Witness for C6 at prior local contents [9,9,9] and remote bytes [1,2]. -/
theorem c6_witness :
    lockedFetch { remotePath := "r", localPath := "l", updateInterval := 10 }
      { localFile := some [9, 9, 9], lastFetchedAt := 0 }
      { localOpenErr := none,
        remoteOpen := .ok { data := [1, 2], errAfter := none },
        abortIn := none, busy := false, now := 5 } =
      some { ret := .ok (),
             localFile := some (([1, 2] : List Nat) ++ ([9, 9, 9] : List Nat).drop 2),
             lastFetchedAt := 5, localLeaked := false, retPos := some 0 } ∧
    (([9, 9, 9] : List Nat).length ≤ ([1, 2] : List Nat).length →
      ([1, 2] : List Nat) ++ ([9, 9, 9] : List Nat).drop 2 = [1, 2]) :=
  c6_fetch_round_trip
    { remotePath := "r", localPath := "l", updateInterval := 10 }
    { localFile := some [9, 9, 9], lastFetchedAt := 0 }
    { localOpenErr := none, remoteOpen := .ok { data := [1, 2], errAfter := none },
      abortIn := none, busy := false, now := 5 }
    { data := [1, 2], errAfter := none }
    (by decide) rfl rfl rfl rfl rfl

/-- Claim C8: whenever the copy loop of a Fetch delivers an error — Aborted
or any stream error or the busy rejection — lockedFetch returns exactly that
error to its caller and leaves lastFetchedAt unchanged, so a later freshness
check still considers a refresh due. -/
theorem c8_error_propagates (plan : Plan) (m : Manager) (env : FetchEnv)
    (remote : RemoteStream) (e : Err) (s' : CopySt)
    (hopen : env.localOpenErr = none)
    (hpath : plan.localPath ≠ plan.remotePath)
    (hremote : env.remoteOpen = .ok remote)
    (hrun : Run env.busy (copyTick copyBlockSize remote) env.abortIn
        (remote.data.length + 1)
        { fileContents := m.localFile.getD [], filePos := 0, remotePos := 0 } =
      some (.failure e s')) :
    lockedFetch plan m env =
      some { ret := .error e, localFile := some s'.fileContents,
             lastFetchedAt := m.lastFetchedAt, localLeaked := true, retPos := none } := by
  simp only [lockedFetch, hopen]
  rw [if_neg hpath]
  simp only [hremote]
  rw [hrun]

/-- Witness for C8: an abort visible at the first check makes lockedFetch
return Aborted with lastFetchedAt still 7. -/
theorem c8_witness :
    lockedFetch { remotePath := "r", localPath := "l", updateInterval := 10 }
      { localFile := some [4], lastFetchedAt := 7 }
      { localOpenErr := none,
        remoteOpen := .ok { data := [1, 2], errAfter := none },
        abortIn := some 0, busy := false, now := 9 } =
      some { ret := .error .aborted, localFile := some [4], lastFetchedAt := 7,
             localLeaked := true, retPos := none } :=
  c8_error_propagates
    { remotePath := "r", localPath := "l", updateInterval := 10 }
    { localFile := some [4], lastFetchedAt := 7 }
    { localOpenErr := none, remoteOpen := .ok { data := [1, 2], errAfter := none },
      abortIn := some 0, busy := false, now := 9 }
    { data := [1, 2], errAfter := none } .aborted
    { fileContents := [4], filePos := 0, remotePos := 0 }
    rfl (by decide) rfl (by decide)

/-- Claim C5 counterexample: Abort on an Abortable with an active run returns
success, yet the run still delivers its success result: the abort signal was
issued while the first tick was executing (visible only from the next select
check), and that tick completed the run with result 42 — so the result handle
CAN deliver a success result after a successful Abort. -/
theorem c5_counterexample :
    Abort { installed := true, closed := false } =
      (.ok (), { installed := true, closed := true }) ∧
    runLoop scriptTick (some 1) 2 [(some 42, none)] = some (.result 42 []) := by
  constructor
  · decide
  · decide

/-- Claim C5 amended: Abort with no installed quit channel returns NotRunning
and changes nothing; Abort with an active run closes the channel and returns
success, and when the abort becomes visible before any step has completed the
run — that is, every tick the loop executes up to the abort check keeps
returning (nil, nil) — the error handle delivers Aborted and no success
result is ever delivered; only a step already in flight at the moment of the
abort can still complete the run. -/
theorem c5_abort_delivery (c : Bool) (j fuel : Nat)
    (script : List (Option Nat × Option Err))
    (hpre : ∀ p ∈ script.take j, p = (none, none))
    (hfuel : j < fuel) :
    Abort { installed := false, closed := c } =
      (.error .notRunning, { installed := false, closed := c }) ∧
    Abort { installed := true, closed := c } =
      (.ok (), { installed := true, closed := true }) ∧
    runLoop scriptTick (some j) fuel script =
      some (.failure .aborted (script.drop j)) :=
  ⟨by simp [Abort], by simp [Abort], runLoop_script_abort j fuel script hpre hfuel⟩

/-- Witness for C5: one keep-going tick, abort visible at the second check. -/
theorem c5_witness :
    Abort { installed := false, closed := false } =
      (.error .notRunning, { installed := false, closed := false }) ∧
    Abort { installed := true, closed := false } =
      (.ok (), { installed := true, closed := true }) ∧
    runLoop scriptTick (some 1) 3 [(none, none), (some 5, none)] =
      some (.failure .aborted [(some 5, none)]) :=
  c5_abort_delivery false 1 3 [(none, none), (some 5, none)] (by decide) (by decide)

lemma lockedFetch_abort_run (plan : Plan) (m : Manager) (env : FetchEnv)
    (remote : RemoteStream) (k : Nat) (old : List Nat)
    (hfile : m.localFile = some old)
    (hopen : env.localOpenErr = none)
    (hpath : plan.localPath ≠ plan.remotePath)
    (hremote : env.remoteOpen = .ok remote)
    (habort : env.abortIn = some k)
    (hbusy : env.busy = false)
    (hk : k * copyBlockSize ≤ remote.data.length) :
    lockedFetch plan m env =
      some { ret := .error .aborted,
             localFile := some (remote.data.take (k * copyBlockSize) ++
                                old.drop (k * copyBlockSize)),
             lastFetchedAt := m.lastFetchedAt, localLeaked := true, retPos := none } := by
  have hB : 1 ≤ copyBlockSize := by norm_num [copyBlockSize]
  have hk1 : k ≤ k * copyBlockSize :=
    calc k = k * 1 := (Nat.mul_one k).symm
      _ ≤ k * copyBlockSize := Nat.mul_le_mul_left k hB
  have hrun := runLoop_copy_abort copyBlockSize hB remote k (remote.data.length + 1)
    old 0 0 (by omega) (by omega) (by omega) (by omega)
  have hw : writeAt old 0 ((remote.data.drop 0).take (k * copyBlockSize)) =
      remote.data.take (k * copyBlockSize) ++ old.drop (k * copyBlockSize) := by
    simp [writeAt, List.length_take, Nat.min_eq_left hk]
  simp only [lockedFetch, hopen, hfile, Option.getD_some]
  rw [if_neg hpath]
  simp only [hremote, Run, hbusy, habort, if_false, Bool.false_eq_true]
  rw [hrun, hw]

/-- Claim C2 amended: aborting a refresh k full blocks into the copy leaves
the local file as the first k blocks of the new contents followed by the
previous contents beyond that offset — the file is overwritten in place and
never truncated or atomically replaced, so a reader that Opens the file while
the cache is not yet due observes this mixture; lastFetchedAt is unchanged so
a later due check will retry. -/
theorem c2_abort_leaves_mixture (plan : Plan) (m : Manager) (env : FetchEnv)
    (remote : RemoteStream) (k : Nat) (old : List Nat)
    (hfile : m.localFile = some old)
    (hopen : env.localOpenErr = none)
    (hpath : plan.localPath ≠ plan.remotePath)
    (hremote : env.remoteOpen = .ok remote)
    (habort : env.abortIn = some k)
    (hbusy : env.busy = false)
    (hk : k * copyBlockSize ≤ remote.data.length) :
    lockedFetch plan m env =
      some { ret := .error .aborted,
             localFile := some (remote.data.take (k * copyBlockSize) ++
                                old.drop (k * copyBlockSize)),
             lastFetchedAt := m.lastFetchedAt, localLeaked := true, retPos := none } ∧
    (∀ env2 : FetchEnv,
      needsFetch env2.now m.lastFetchedAt plan.updateInterval true = false →
      Open plan
        { localFile := some (remote.data.take (k * copyBlockSize) ++
                             old.drop (k * copyBlockSize)),
          lastFetchedAt := m.lastFetchedAt } env2 =
      some (.ok (remote.data.take (k * copyBlockSize) ++ old.drop (k * copyBlockSize)),
            { localFile := some (remote.data.take (k * copyBlockSize) ++
                                 old.drop (k * copyBlockSize)),
              lastFetchedAt := m.lastFetchedAt })) := by
  constructor
  · exact lockedFetch_abort_run plan m env remote k old hfile hopen hpath hremote
      habort hbusy hk
  · intro env2 hdue
    simp [Open, hdue]

/-- Witness for C2 at k = 0 (abort before the first block): the file keeps
its complete previous contents and lastFetchedAt is unchanged; an Open while
not due returns those contents. -/
theorem c2_witness :
    lockedFetch { remotePath := "r", localPath := "l", updateInterval := 10 }
      { localFile := some [4], lastFetchedAt := 0 }
      { localOpenErr := none,
        remoteOpen := .ok { data := [1, 2], errAfter := none },
        abortIn := some 0, busy := false, now := 5 } =
      some { ret := .error .aborted,
             localFile := some (([1, 2] : List Nat).take (0 * copyBlockSize) ++
                                ([4] : List Nat).drop (0 * copyBlockSize)),
             lastFetchedAt := 0, localLeaked := true, retPos := none } ∧
    (∀ env2 : FetchEnv,
      needsFetch env2.now 0 10 true = false →
      Open { remotePath := "r", localPath := "l", updateInterval := 10 }
        { localFile := some (([1, 2] : List Nat).take (0 * copyBlockSize) ++
                             ([4] : List Nat).drop (0 * copyBlockSize)),
          lastFetchedAt := 0 } env2 =
      some (.ok (([1, 2] : List Nat).take (0 * copyBlockSize) ++
                 ([4] : List Nat).drop (0 * copyBlockSize)),
            { localFile := some (([1, 2] : List Nat).take (0 * copyBlockSize) ++
                                 ([4] : List Nat).drop (0 * copyBlockSize)),
              lastFetchedAt := 0 })) :=
  c2_abort_leaves_mixture
    { remotePath := "r", localPath := "l", updateInterval := 10 }
    { localFile := some [4], lastFetchedAt := 0 }
    { localOpenErr := none, remoteOpen := .ok { data := [1, 2], errAfter := none },
      abortIn := some 0, busy := false, now := 5 }
    { data := [1, 2], errAfter := none } 0 [4]
    rfl rfl (by decide) rfl rfl rfl (by simp)

set_option maxRecDepth 4096 in
/-- Claim C2 counterexample: a refresh of a 2-block file aborted after one
block leaves the local file as one block of the new contents followed by one
block of the old contents; an Open issued while the cache is not yet due
returns a handle on exactly this mixture, which is neither the complete
previous contents nor the complete new contents. -/
theorem c2_counterexample :
    lockedFetch { remotePath := "r", localPath := "l", updateInterval := 10 }
      { localFile := some (List.replicate (2 * copyBlockSize) 0), lastFetchedAt := 0 }
      { localOpenErr := none,
        remoteOpen := .ok { data := List.replicate (2 * copyBlockSize) 1, errAfter := none },
        abortIn := some 1, busy := false, now := 5 } =
      some { ret := .error .aborted,
             localFile := some (List.replicate copyBlockSize 1 ++
                                List.replicate copyBlockSize 0),
             lastFetchedAt := 0, localLeaked := true, retPos := none } ∧
    Open { remotePath := "r", localPath := "l", updateInterval := 10 }
      { localFile := some (List.replicate copyBlockSize 1 ++
                           List.replicate copyBlockSize 0),
        lastFetchedAt := 0 }
      { localOpenErr := none, remoteOpen := .ok { data := [], errAfter := none },
        abortIn := none, busy := false, now := 5 } =
      some (.ok (List.replicate copyBlockSize 1 ++ List.replicate copyBlockSize 0),
            { localFile := some (List.replicate copyBlockSize 1 ++
                                 List.replicate copyBlockSize 0),
              lastFetchedAt := 0 }) ∧
    List.replicate copyBlockSize 1 ++ List.replicate copyBlockSize 0 ≠
      List.replicate (2 * copyBlockSize) 0 ∧
    List.replicate copyBlockSize 1 ++ List.replicate copyBlockSize 0 ≠
      List.replicate (2 * copyBlockSize) 1 := by
  have hB : 1 ≤ copyBlockSize := by norm_num [copyBlockSize]
  have hBpos : 0 < copyBlockSize := hB
  refine ⟨?_, ?_, ?_, ?_⟩
  · have heq := lockedFetch_abort_run
      { remotePath := "r", localPath := "l", updateInterval := 10 }
      { localFile := some (List.replicate (2 * copyBlockSize) 0), lastFetchedAt := 0 }
      { localOpenErr := none,
        remoteOpen := .ok { data := List.replicate (2 * copyBlockSize) 1, errAfter := none },
        abortIn := some 1, busy := false, now := 5 }
      { data := List.replicate (2 * copyBlockSize) 1, errAfter := none } 1
      (List.replicate (2 * copyBlockSize) 0)
      rfl rfl (by decide) rfl rfl rfl
      (by simp only [Nat.one_mul, List.length_replicate]; omega)
    rw [Nat.one_mul, List.take_replicate, List.drop_replicate,
      Nat.min_eq_left (by omega : copyBlockSize ≤ 2 * copyBlockSize),
      show 2 * copyBlockSize - copyBlockSize = copyBlockSize by omega] at heq
    exact heq
  · rfl
  · rw [Nat.two_mul, List.replicate_add]
    exact replicate_append_ne copyBlockSize hBpos 1 0 _ _ (by decide)
  · rw [Nat.two_mul, List.replicate_add]
    intro h
    have h2 : List.replicate copyBlockSize 0 = List.replicate copyBlockSize 1 :=
      List.append_cancel_left h
    have h3 := replicate_append_ne copyBlockSize hBpos 0 1 [] [] (by decide)
    rw [List.append_nil, List.append_nil] at h3
    exact h3 h2

end fsync
